import Mathlib

/-!
Verification of the `aad-remove-from-group` action (Azure AD remove user from
group, Microsoft Graph API) against its design specification.

The development shallowly embeds the bundled script `src/dist/index.js`
(the canonical OAuth2 variant, lines 399-687) and the current script
`src/script.mjs`:

* JavaScript strings become `String`; a possibly-`undefined` string field
  becomes `Option String`, with JS truthiness (`undefined` and `""` are
  falsy) embedded as `truthy`.
* `fetch` is embedded by splitting each helper into the pure request it
  builds (`HttpRequest`) and the handling of a caller-supplied response
  (the test-suite style of mocking: responses are oracle inputs).
* `async`/`await` sequencing is direct state passing; a thrown `Error`
  is `Except.error` carrying the message string; `console.log` output is
  an accumulated list of lines.
-/

namespace Aad

/-- JS truthiness of a possibly-undefined string value: `undefined` and the
empty string are falsy, every other string is truthy. -/
def truthy : Option String → Bool
  | none => false
  | some s => !(s == "")

/-- JS `a || b` on possibly-undefined strings with a string default:
returns the left value when truthy, otherwise the default. -/
def jsOr (v : Option String) (d : String) : String :=
  match v with
  | none => d
  | some s => if s == "" then d else s

/-- Does the character list `s` start with the character list `pat`?
(Embeds the prefix test underlying `String.prototype.includes`.) -/
def hasPrefixL : List Char → List Char → Bool
  | _, [] => true
  | [], _ :: _ => false
  | a :: as, b :: bs => a == b && hasPrefixL as bs

/-- Does the character list `s` contain `pat` as a contiguous sublist? -/
def hasSubstrL : List Char → List Char → Bool
  | [], pat => pat.isEmpty
  | c :: rest, pat => hasPrefixL (c :: rest) pat || hasSubstrL rest pat

/-- Embedding of `String.prototype.includes(pat)`. -/
def containsSub (s pat : String) : Bool :=
  hasSubstrL s.data pat.data

/-- Characters left unescaped by ECMAScript `encodeURIComponent`:
ASCII letters, digits, and `- _ . ! ~ * ' ( )` (39 is the apostrophe). -/
def isUriUnreserved (c : Char) : Bool :=
  c.isAlpha || c.isDigit || c == Char.ofNat 45 || c == Char.ofNat 95 ||
  c == Char.ofNat 46 || c == Char.ofNat 33 || c == Char.ofNat 126 ||
  c == Char.ofNat 42 || c == Char.ofNat 39 || c == Char.ofNat 40 ||
  c == Char.ofNat 41

/-- UTF-8 byte sequence of a character, as natural numbers below 256. -/
def utf8Bytes (c : Char) : List Nat :=
  let n := c.toNat
  if n < 0x80 then [n]
  else if n < 0x800 then
    [0xC0 ||| (n >>> 6), 0x80 ||| (n &&& 0x3F)]
  else if n < 0x10000 then
    [0xE0 ||| (n >>> 12), 0x80 ||| ((n >>> 6) &&& 0x3F), 0x80 ||| (n &&& 0x3F)]
  else
    [0xF0 ||| (n >>> 18), 0x80 ||| ((n >>> 12) &&& 0x3F),
     0x80 ||| ((n >>> 6) &&& 0x3F), 0x80 ||| (n &&& 0x3F)]

/-- Uppercase hexadecimal digit for `n < 16`. -/
def hexDigitChar (n : Nat) : Char :=
  if n < 10 then Char.ofNat (48 + n) else Char.ofNat (55 + n)

/-- Percent-escape of one byte, `%XX` with uppercase hex (37 is `%`). -/
def pctByte (b : Nat) : String :=
  String.mk [Char.ofNat 37, hexDigitChar (b / 16), hexDigitChar (b % 16)]

/-- Embedding of ECMAScript `encodeURIComponent`: unreserved characters are
kept, every other character is replaced by the percent-escapes of its
UTF-8 bytes. -/
def encodeURIComponent (s : String) : String :=
  String.join (s.data.map fun c =>
    if isUriUnreserved c then String.singleton c
    else String.join ((utf8Bytes c).map pctByte))

/-- Base64 alphabet (RFC 4648), used by `Buffer.toString(base64)`. -/
def base64Alphabet : List Char :=
  "ABCDEFGHIJKLMNOPQRSTUVWXYZabcdefghijklmnopqrstuvwxyz0123456789+/".data

/-- Character of the base64 alphabet at index `n < 64`. -/
def b64Char (n : Nat) : Char :=
  base64Alphabet.getD n (Char.ofNat 65)

/-- Base64 encoding of a byte list, with `=` padding. -/
def base64EncodeBytes : List Nat → String
  | [] => ""
  | [a] =>
    String.mk [b64Char (a >>> 2), b64Char ((a &&& 3) <<< 4), Char.ofNat 61, Char.ofNat 61]
  | [a, b] =>
    String.mk [b64Char (a >>> 2), b64Char (((a &&& 3) <<< 4) ||| (b >>> 4)),
               b64Char ((b &&& 15) <<< 2), Char.ofNat 61]
  | a :: b :: c :: rest =>
    String.mk [b64Char (a >>> 2), b64Char (((a &&& 3) <<< 4) ||| (b >>> 4)),
               b64Char (((b &&& 15) <<< 2) ||| (c >>> 6)), b64Char (c &&& 63)] ++
    base64EncodeBytes rest

/-- UTF-8 bytes of a string. -/
def utf8Str (s : String) : List Nat :=
  (s.data.map utf8Bytes).foldr (· ++ ·) []

/-- Embedding of Node `Buffer.from(s).toString(base64)`. -/
def base64 (s : String) : String :=
  base64EncodeBytes (utf8Str s)

/-! ## Data model (src/dist/index.js lines 509-543, src/script.mjs lines 50-72)

Job input parameters and the execution context. Fields that the script reads
and that may be absent at runtime are `Option String`. -/

/-- Job input parameters of the invoke handler. -/
structure Params where
  userPrincipalName : Option String
  groupId : Option String
  address : Option String

/-- Secrets read by the canonical bundle (src/dist/index.js lines 564-569). -/
structure Secrets where
  OAUTH2_AUTHORIZATION_CODE_ACCESS_TOKEN : Option String
  OAUTH2_CLIENT_CREDENTIALS_CLIENT_SECRET : Option String

/-- Environment variables read by the canonical bundle
(src/dist/index.js lines 557, 567-568, 579-581). -/
structure Environment where
  ADDRESS : Option String
  OAUTH2_CLIENT_CREDENTIALS_TOKEN_URL : Option String
  OAUTH2_CLIENT_CREDENTIALS_CLIENT_ID : Option String
  OAUTH2_CLIENT_CREDENTIALS_SCOPE : Option String
  OAUTH2_CLIENT_CREDENTIALS_AUDIENCE : Option String
  OAUTH2_CLIENT_CREDENTIALS_AUTH_STYLE : Option String

/-- Execution context passed to every handler. -/
structure Context where
  environment : Environment
  secrets : Secrets

/-- An outgoing HTTP request as the script assembles it for `fetch`.
The form-encoded body of the token request is kept as its parameter list
(the content of the `URLSearchParams`); GET/DELETE requests have none. -/
structure HttpRequest where
  method : String
  url : String
  headers : List (String × String)
  formParams : List (String × String)
deriving DecidableEq, Repr

/-- Response oracle for the OAuth2 token endpoint. `accessToken` is the
`access_token` field of the parsed JSON body (absent field = `none`);
`bodyText` is the serialized body used in the failure message
(src/dist/index.js lines 433-439). -/
structure TokenResponse where
  ok : Bool
  status : Nat
  statusText : String
  accessToken : Option String
  bodyText : String

/-- Response oracle for the resolve-user GET. `id` is the `id` field of the
parsed JSON body (absent field = `none`). -/
structure UserResponse where
  ok : Bool
  status : Nat
  statusText : String
  id : Option String

/-- Response oracle for the removal DELETE; the script reads only the
status and status text of this response. -/
structure RemoveResponse where
  status : Nat
  statusText : String

/-- The RemovalResult record returned by a successful invocation
(src/dist/index.js lines 615-630). -/
structure RemovalResult where
  status : String
  userPrincipalName : String
  groupId : String
  userId : String
  removed : Bool
deriving DecidableEq, Repr

deriving instance DecidableEq for Except

/-- Full observable outcome of one run of the invoke handler: the returned
record or thrown error message, the requests handed to `fetch` in order,
and the `console.log` lines. -/
structure InvokeTrace where
  result : Except String RemovalResult
  requests : List HttpRequest
  logs : List String
deriving DecidableEq, Repr

/-! ## Directory client (src/dist/index.js lines 461-507) -/

/-- Trailing-slash stripping applied to the base address by both helpers
(src/dist/index.js lines 463, 491): `address.endsWith(/) ?
address.slice(0, -1) : address`. For the one-character suffix tested
there, `endsWith` is the last-character test and `slice(0, -1)` drops
that character (47 is the slash). -/
def stripTrailingSlash (address : String) : String :=
  if address.data.getLast? == some (Char.ofNat 47) then
    String.mk address.data.dropLast
  else address

/-- Authorization header value: the access token, prefixed with `Bearer `
unless already so prefixed (src/dist/index.js lines 468, 496). -/
def bearerHeader (accessToken : String) : String :=
  if hasPrefixL accessToken.data "Bearer ".data then accessToken
  else "Bearer " ++ accessToken

/-- Request built by `getUser` (src/dist/index.js lines 461-476): GET
`{base}/v1.0/users/{encodeURIComponent(userPrincipalName)}`. -/
def getUserRequest (userPrincipalName address accessToken : String) : HttpRequest :=
  { method := "GET"
  , url := stripTrailingSlash address ++ "/v1.0/users/" ++
      encodeURIComponent userPrincipalName
  , headers := [("Authorization", bearerHeader accessToken),
                ("Accept", "application/json")]
  , formParams := [] }

/-- Request built by `removeUserFromGroup` (src/dist/index.js lines 489-504):
DELETE `{base}/v1.0/groups/{groupId}/members/{encodeURIComponent(userId)}/$ref`;
`groupId` is inserted verbatim. -/
def removeUserFromGroupRequest (groupId userId address accessToken : String) :
    HttpRequest :=
  { method := "DELETE"
  , url := stripTrailingSlash address ++ "/v1.0/groups/" ++ groupId ++
      "/members/" ++ encodeURIComponent userId ++ "/$ref"
  , headers := [("Authorization", bearerHeader accessToken),
                ("Accept", "application/json")]
  , formParams := [] }

/-! ## OAuth2 client-credentials exchange (src/dist/index.js lines 399-452) -/

/-- Configuration object passed to `getClientCredentialsToken`
(src/dist/index.js lines 575-582). -/
structure OAuth2Config where
  tokenUrl : String
  clientId : String
  clientSecret : String
  scope : Option String
  audience : Option String
  authStyle : Option String

/-- Form parameters of the token request (src/dist/index.js lines 402-424):
`grant_type=client_credentials`, then `scope` and `audience` when truthy,
then `client_id`/`client_secret` exactly when `authStyle === InParams`. -/
def ccFormParams (cfg : OAuth2Config) : List (String × String) :=
  [("grant_type", "client_credentials")] ++
  (if truthy cfg.scope then [("scope", cfg.scope.getD "")] else []) ++
  (if truthy cfg.audience then [("audience", cfg.audience.getD "")] else []) ++
  (if cfg.authStyle == some "InParams" then
    [("client_id", cfg.clientId), ("client_secret", cfg.clientSecret)]
  else [])

/-- Headers of the token request (src/dist/index.js lines 413-424): content
type and accept always; an HTTP Basic header carrying
`base64(clientId:clientSecret)` exactly when `authStyle` is not `InParams`. -/
def ccHeaders (cfg : OAuth2Config) : List (String × String) :=
  [("Content-Type", "application/x-www-form-urlencoded"),
   ("Accept", "application/json")] ++
  (if cfg.authStyle == some "InParams" then []
   else [("Authorization", "Basic " ++ base64 (cfg.clientId ++ ":" ++ cfg.clientSecret))])

/-- The POST request issued by `getClientCredentialsToken`
(src/dist/index.js lines 426-430). -/
def ccTokenRequest (cfg : OAuth2Config) : HttpRequest :=
  { method := "POST", url := cfg.tokenUrl, headers := ccHeaders cfg,
    formParams := ccFormParams cfg }

/-- Embedding of `getClientCredentialsToken` (src/dist/index.js lines
399-452): builds the token request and interprets the caller-supplied
response, returning the `access_token` or the thrown error message. -/
def getClientCredentialsToken (cfg : OAuth2Config) (resp : TokenResponse) :
    HttpRequest × Except String String :=
  let req := ccTokenRequest cfg
  let outcome : Except String String :=
    if !resp.ok then
      .error ("OAuth2 token request failed: " ++ toString resp.status ++ " " ++
        resp.statusText ++ " - " ++ resp.bodyText)
    else if !truthy resp.accessToken then
      .error "No access_token in OAuth2 response"
    else
      .ok (resp.accessToken.getD "")
  (req, outcome)

/-! ## Invoke handler (src/dist/index.js lines 544-634) -/

/-- Base address resolution (src/dist/index.js line 557):
`params.address || context.environment?.ADDRESS`. -/
def addressOf (params : Params) (ctx : Context) : Option String :=
  if truthy params.address then params.address else ctx.environment.ADDRESS

/-- Access-token acquisition of the invoke handler (src/dist/index.js lines
562-585): a pre-issued authorization-code access token wins; otherwise the
client-credentials exchange runs (its request is returned in the list);
otherwise a configuration error. -/
def resolveAccessToken (ctx : Context) (tokenResp : TokenResponse) :
    Except String String × List HttpRequest :=
  if truthy ctx.secrets.OAUTH2_AUTHORIZATION_CODE_ACCESS_TOKEN then
    (.ok (ctx.secrets.OAUTH2_AUTHORIZATION_CODE_ACCESS_TOKEN.getD ""), [])
  else if truthy ctx.secrets.OAUTH2_CLIENT_CREDENTIALS_CLIENT_SECRET then
    if !truthy ctx.environment.OAUTH2_CLIENT_CREDENTIALS_TOKEN_URL ||
       !truthy ctx.environment.OAUTH2_CLIENT_CREDENTIALS_CLIENT_ID ||
       !truthy ctx.secrets.OAUTH2_CLIENT_CREDENTIALS_CLIENT_SECRET then
      (.error "OAuth2 Client Credentials flow requires TOKEN_URL, CLIENT_ID, and CLIENT_SECRET", [])
    else
      let cfg : OAuth2Config :=
        { tokenUrl := ctx.environment.OAUTH2_CLIENT_CREDENTIALS_TOKEN_URL.getD ""
        , clientId := ctx.environment.OAUTH2_CLIENT_CREDENTIALS_CLIENT_ID.getD ""
        , clientSecret := ctx.secrets.OAUTH2_CLIENT_CREDENTIALS_CLIENT_SECRET.getD ""
        , scope := ctx.environment.OAUTH2_CLIENT_CREDENTIALS_SCOPE
        , audience := ctx.environment.OAUTH2_CLIENT_CREDENTIALS_AUDIENCE
        , authStyle := ctx.environment.OAUTH2_CLIENT_CREDENTIALS_AUTH_STYLE }
      let (req, outcome) := getClientCredentialsToken cfg tokenResp
      (outcome, [req])
  else
    (.error "OAuth2 authentication is required. Configure either Authorization Code or Client Credentials flow.", [])

/-- Embedding of the invoke handler (src/dist/index.js lines 544-634).
The three oracle arguments stand for the responses `fetch` would return to
the token request, the resolve-user GET, and the removal DELETE; each is
consulted only if the corresponding request is actually issued. -/
def invoke (params : Params) (ctx : Context) (tokenResp : TokenResponse)
    (userResp : UserResponse) (removeResp : RemoveResponse) : InvokeTrace :=
  let logs0 := ["Starting Azure AD remove user from group action"]
  if !truthy params.userPrincipalName then
    { result := .error "userPrincipalName is required", requests := [], logs := logs0 }
  else if !truthy params.groupId then
    { result := .error "groupId is required", requests := [], logs := logs0 }
  else if !truthy (addressOf params ctx) then
    { result := .error "No URL specified. Provide either address parameter or ADDRESS environment variable"
    , requests := [], logs := logs0 }
  else
    match resolveAccessToken ctx tokenResp with
    | (.error e, authReqs) => { result := .error e, requests := authReqs, logs := logs0 }
    | (.ok accessToken, authReqs) =>
      let userPrincipalName := params.userPrincipalName.getD ""
      let groupId := params.groupId.getD ""
      let address := (addressOf params ctx).getD ""
      let logs1 := logs0 ++
        ["Removing user " ++ userPrincipalName ++ " from group " ++ groupId,
         "Step 1: Getting user directory object ID for " ++ userPrincipalName]
      let getReq := getUserRequest userPrincipalName address accessToken
      if !userResp.ok then
        { result := .error ("Failed to get user " ++ userPrincipalName ++ ": " ++
            toString userResp.status ++ " " ++ userResp.statusText)
        , requests := authReqs ++ [getReq], logs := logs1 }
      else if !truthy userResp.id then
        { result := .error ("No directory object ID found for user " ++ userPrincipalName)
        , requests := authReqs ++ [getReq], logs := logs1 }
      else
        let userId := userResp.id.getD ""
        let logs2 := logs1 ++
          ["Found user directory object ID: " ++ userId,
           "Step 2: Removing user " ++ userId ++ " from group " ++ groupId]
        let delReq := removeUserFromGroupRequest groupId userId address accessToken
        let reqs := authReqs ++ [getReq, delReq]
        if removeResp.status == 204 then
          { result := .ok ⟨"success", userPrincipalName, groupId, userId, true⟩
          , requests := reqs
          , logs := logs2 ++ ["Successfully removed user " ++ userPrincipalName ++
              " from group " ++ groupId] }
        else if removeResp.status == 404 then
          { result := .ok ⟨"success", userPrincipalName, groupId, userId, false⟩
          , requests := reqs
          , logs := logs2 ++ ["User " ++ userPrincipalName ++ " was not a member of group " ++
              groupId] }
        else
          { result := .error ("Failed to remove user from group: " ++
              toString removeResp.status ++ " " ++ removeResp.statusText)
          , requests := reqs, logs := logs2 }

/-! ## Error handler (src/dist/index.js lines 642-667, src/script.mjs lines 143-168) -/

/-- Outcome of the error handler: the returned status record or the
re-raised error message, together with the total `setTimeout` delay in
milliseconds incurred before returning. -/
structure ErrorOutcome where
  result : Except String String
  delayMs : Nat
deriving DecidableEq, Repr

/-- Embedding of the error handler applied to the incoming error message
(src/dist/index.js lines 642-667): 429 waits 5000 ms then requests retry;
502/503/504 request retry immediately; 401/403 re-raise; anything else
requests retry. -/
def errorHandler (message : String) : ErrorOutcome :=
  if containsSub message "429" then
    { result := .ok "retry_requested", delayMs := 5000 }
  else if containsSub message "502" || containsSub message "503" ||
      containsSub message "504" then
    { result := .ok "retry_requested", delayMs := 0 }
  else if containsSub message "401" || containsSub message "403" then
    { result := .error message, delayMs := 0 }
  else
    { result := .ok "retry_requested", delayMs := 0 }

/-! ## Halt handler (src/dist/index.js lines 675-686, src/script.mjs lines 176-187) -/

/-- Parameters of the halt handler; all may be absent. -/
structure HaltParams where
  userPrincipalName : Option String
  groupId : Option String
  reason : Option String

/-- Record returned by the halt handler. `reason` is echoed as supplied
(possibly absent, as in JS). -/
structure HaltResult where
  status : String
  userPrincipalName : String
  groupId : String
  reason : Option String
  halted_at : String
deriving DecidableEq, Repr

/-- Embedding of the halt handler (src/dist/index.js lines 675-686). The
handler performs no I/O besides logging; `nowIso` stands for the value of
`new Date().toISOString()` supplied by the runtime clock at the moment the
handler runs. -/
def halt (params : HaltParams) (nowIso : String) : HaltResult :=
  { status := "halted"
  , userPrincipalName := jsOr params.userPrincipalName "unknown"
  , groupId := jsOr params.groupId "unknown"
  , reason := params.reason
  , halted_at := nowIso }

/-! ## Credential resolver of the shared utils package

The current script (src/script.mjs line 86, i.e. src/unnamed/part_002)
obtains its headers from `createAuthHeaders` in `@sgnl-actions/utils`,
whose source is not part of this repository checkout; only its caller and
the spec describe it. -/

/-- Bag of secret/config values inspected by the credential resolver
(spec section 4.1 and 6). -/
structure AuthBag where
  bearerToken : Option String
  basicUsername : Option String
  basicPassword : Option String
  oauthAccessToken : Option String
  ccClientSecret : Option String
  ccTokenUrl : Option String
  ccClientId : Option String
  ccScope : Option String
  ccAudience : Option String
  ccAuthStyle : Option String

/-- Modelled from the spec: `createAuthHeaders` of `@sgnl-actions/utils`
(imported by src/script.mjs line 9; its source is not under src/).
Spec section 4.1: the four schemes are tried in priority order - (1) simple
bearer secret, (2) Basic username+password, (3) pre-issued OAuth2 access
token, (4) OAuth2 client-credentials exchange (which requires token URL and
client ID and reuses the exchange embedded above from src/dist/index.js);
if none is satisfiable, a configuration error enumerating the supported
methods. Produces the single authorization header value. -/
def createAuthHeaders (bag : AuthBag) (tokenResp : TokenResponse) :
    Except String String :=
  if truthy bag.bearerToken then
    .ok (bearerHeader (bag.bearerToken.getD ""))
  else if truthy bag.basicUsername && truthy bag.basicPassword then
    .ok ("Basic " ++ base64 (bag.basicUsername.getD "" ++ ":" ++ bag.basicPassword.getD ""))
  else if truthy bag.oauthAccessToken then
    .ok (bearerHeader (bag.oauthAccessToken.getD ""))
  else if truthy bag.ccClientSecret then
    if !truthy bag.ccTokenUrl || !truthy bag.ccClientId then
      .error "OAuth2 Client Credentials flow requires TOKEN_URL, CLIENT_ID, and CLIENT_SECRET"
    else
      match (getClientCredentialsToken
        { tokenUrl := bag.ccTokenUrl.getD ""
        , clientId := bag.ccClientId.getD ""
        , clientSecret := bag.ccClientSecret.getD ""
        , scope := bag.ccScope
        , audience := bag.ccAudience
        , authStyle := bag.ccAuthStyle } tokenResp).2 with
      | .error e => .error e
      | .ok tok => .ok (bearerHeader tok)
  else
    .error "No supported authentication method configured. Supported methods: bearer token secret, basic username and password secrets, OAuth2 access token secret, OAuth2 client credentials"

/-! ## Helper lemmas -/

theorem hasPrefixL_append_self : ∀ (p rest : List Char), hasPrefixL (p ++ rest) p = true
  | [], rest => by cases rest <;> rfl
  | a :: as, rest => by simp [hasPrefixL, hasPrefixL_append_self as rest]

theorem hasSubstrL_of_hasPrefixL : ∀ (s pat : List Char),
    hasPrefixL s pat = true → hasSubstrL s pat = true
  | [], [], _ => rfl
  | [], _ :: _, h => by simp [hasPrefixL] at h
  | _ :: _, _, h => by simp [hasSubstrL, h]

theorem hasSubstrL_append_left : ∀ (pre s pat : List Char),
    hasSubstrL s pat = true → hasSubstrL (pre ++ s) pat = true
  | [], _, _, h => h
  | _ :: pre, s, pat, h => by
    simp only [List.cons_append, hasSubstrL, Bool.or_eq_true]
    exact Or.inr (hasSubstrL_append_left pre s pat h)

/-- A string contains any factor exhibited by an explicit decomposition of
its character list. -/
theorem containsSub_of_infix (s pat : String) (l r : List Char)
    (h : s.data = l ++ (pat.data ++ r)) : containsSub s pat = true := by
  unfold containsSub
  rw [h]
  exact hasSubstrL_append_left _ _ _
    (hasSubstrL_of_hasPrefixL _ _ (hasPrefixL_append_self _ _))

theorem containsSub_append3 (a b c : String) : containsSub (a ++ b ++ c) b = true :=
  containsSub_of_infix _ _ a.data c.data (by simp [String.data_append])

theorem containsSub_append2 (a b : String) : containsSub (a ++ b) b = true :=
  containsSub_of_infix _ _ a.data [] (by simp [String.data_append])

/-- Two strings whose first characters differ are distinct. -/
theorem string_ne_of_head {s t : String} {a b : Char}
    (hs : s.data.head? = some a) (ht : t.data.head? = some b) (hab : a ≠ b) :
    s ≠ t := by
  intro h
  apply hab
  have h2 : s.data.head? = t.data.head? := by rw [h]
  rw [hs, ht] at h2
  exact Option.some.inj h2

end Aad

namespace Aad

/-! ## Claim theorems -/

/-- C3: for every error message `m`: containing `429` waits 5000 ms and
returns retry_requested; otherwise containing `502`, `503` or `504` returns
retry_requested with no delay; otherwise containing `401` or `403`
re-raises the original error; otherwise returns retry_requested. -/
theorem error_callback_classification (m : String) :
    (containsSub m "429" = true →
      errorHandler m = ⟨.ok "retry_requested", 5000⟩) ∧
    (containsSub m "429" = false →
      (containsSub m "502" || containsSub m "503" || containsSub m "504") = true →
      errorHandler m = ⟨.ok "retry_requested", 0⟩) ∧
    (containsSub m "429" = false →
      (containsSub m "502" || containsSub m "503" || containsSub m "504") = false →
      (containsSub m "401" || containsSub m "403") = true →
      errorHandler m = ⟨.error m, 0⟩) ∧
    (containsSub m "429" = false →
      (containsSub m "502" || containsSub m "503" || containsSub m "504") = false →
      (containsSub m "401" || containsSub m "403") = false →
      errorHandler m = ⟨.ok "retry_requested", 0⟩) := by
  refine ⟨fun h1 => ?_, fun h1 h2 => ?_, fun h1 h2 h3 => ?_, fun h1 h2 h3 => ?_⟩
  · simp [errorHandler, h1]
  · simp only [Bool.or_eq_true] at h2
    rcases h2 with (h | h) | h <;> simp [errorHandler, h1, h]
  · simp only [Bool.or_eq_true, Bool.or_eq_false_iff] at h2 h3
    rcases h3 with h | h <;> simp [errorHandler, h1, h2.1.1, h2.1.2, h2.2, h]
  · simp only [Bool.or_eq_false_iff] at h2 h3
    simp [errorHandler, h1, h2.1.1, h2.1.2, h2.2, h3.1, h3.2]

/-- Witness for C3: each branch of the classification at a concrete
message. -/
theorem error_callback_classification_witness :
    errorHandler "Rate limited: 429" = ⟨.ok "retry_requested", 5000⟩ ∧
    errorHandler "Server error: 502" = ⟨.ok "retry_requested", 0⟩ ∧
    errorHandler "Auth error: 403" = ⟨.error "Auth error: 403", 0⟩ ∧
    errorHandler "Some other error" = ⟨.ok "retry_requested", 0⟩ :=
  ⟨(error_callback_classification "Rate limited: 429").1 (by decide),
   (error_callback_classification "Server error: 502").2.1 (by decide) (by decide),
   (error_callback_classification "Auth error: 403").2.2.1 (by decide) (by decide) (by decide),
   (error_callback_classification "Some other error").2.2.2 (by decide) (by decide) (by decide)⟩

/-- C10: the substring checks of the error callback run in a fixed order
with the rate-limit check first: a message containing `429` gets the
5-second delay and retry_requested even if it also contains `401` or
`403`; the re-raise classification applies exactly to the messages
containing `401` or `403` but none of `429`, `502`, `503`, `504`. -/
theorem error_callback_check_order (m : String) :
    (containsSub m "429" = true →
      (containsSub m "401" = true ∨ containsSub m "403" = true) →
      errorHandler m = ⟨.ok "retry_requested", 5000⟩) ∧
    ((errorHandler m).result = .error m ↔
      ((containsSub m "401" = true ∨ containsSub m "403" = true) ∧
       containsSub m "429" = false ∧ containsSub m "502" = false ∧
       containsSub m "503" = false ∧ containsSub m "504" = false)) := by
  constructor
  · intro h1 _
    simp [errorHandler, h1]
  · unfold errorHandler
    rcases h429 : containsSub m "429" <;>
      rcases h502 : containsSub m "502" <;>
      rcases h503 : containsSub m "503" <;>
      rcases h504 : containsSub m "504" <;>
      rcases h401 : containsSub m "401" <;>
      rcases h403 : containsSub m "403" <;>
      simp

/-- Witness for C10: a message containing both `429` and `401` is retried
after the delay, not re-raised. -/
theorem error_callback_check_order_witness :
    errorHandler "429 after 401" = ⟨.ok "retry_requested", 5000⟩ :=
  (error_callback_check_order "429 after 401").1 (by decide) (Or.inl (by decide))

/-- C6: the resolve-user URL is the base (trailing slash stripped) followed
by `/v1.0/users/` and the `encodeURIComponent` encoding of the principal
name; the removal URL inserts `groupId` verbatim and percent-encodes the
resolved user id; `+` encodes to `%2B` and `@` to `%40`. -/
theorem request_url_construction :
    (∀ userPrincipalName address accessToken,
      (getUserRequest userPrincipalName address accessToken).url =
        stripTrailingSlash address ++ "/v1.0/users/" ++
          encodeURIComponent userPrincipalName) ∧
    (∀ groupId userId address accessToken,
      (removeUserFromGroupRequest groupId userId address accessToken).url =
        stripTrailingSlash address ++ "/v1.0/groups/" ++ groupId ++
          "/members/" ++ encodeURIComponent userId ++ "/$ref") ∧
    encodeURIComponent "+" = "%2B" ∧
    encodeURIComponent "@" = "%40" ∧
    encodeURIComponent "user+tag@example.com" = "user%2Btag%40example.com" ∧
    encodeURIComponent "user+123&456=789" = "user%2B123%26456%3D789" ∧
    stripTrailingSlash "https://graph.microsoft.com/" = "https://graph.microsoft.com" ∧
    stripTrailingSlash "https://graph.microsoft.com" = "https://graph.microsoft.com" :=
  ⟨fun _ _ _ => rfl, fun _ _ _ _ => rfl, by decide, by decide, by decide,
   by decide, by decide, by decide⟩

/-- C8: the halt callback returns status `halted`, echoes the halt reason,
stamps the supplied clock value (the runtime's ISO-8601 `toISOString`
rendering), and defaults a missing or empty `userPrincipalName` or
`groupId` to the literal string `unknown`; in particular with only a
reason supplied both identifiers come back as `unknown`. The embedding of
the handler is a pure function: it performs no I/O. -/
theorem halt_callback_shape (p : HaltParams) (nowIso : String) :
    (halt p nowIso).status = "halted" ∧
    (halt p nowIso).reason = p.reason ∧
    (halt p nowIso).halted_at = nowIso ∧
    (truthy p.userPrincipalName = false → (halt p nowIso).userPrincipalName = "unknown") ∧
    (∀ s, p.userPrincipalName = some s → (s == "") = false →
      (halt p nowIso).userPrincipalName = s) ∧
    (truthy p.groupId = false → (halt p nowIso).groupId = "unknown") ∧
    (∀ s, p.groupId = some s → (s == "") = false → (halt p nowIso).groupId = s) ∧
    halt ⟨none, none, some "x"⟩ nowIso = ⟨"halted", "unknown", "unknown", some "x", nowIso⟩ := by
  refine ⟨rfl, rfl, rfl, fun h => ?_, fun s hs hs2 => ?_, fun h => ?_, fun s hs hs2 => ?_, rfl⟩
  · cases hp : p.userPrincipalName with
    | none => simp [halt, jsOr, hp]
    | some v =>
      rw [hp] at h
      simp [truthy] at h
      simp [halt, jsOr, hp, h]
  · simp [halt, jsOr, hs, hs2]
  · cases hp : p.groupId with
    | none => simp [halt, jsOr, hp]
    | some v =>
      rw [hp] at h
      simp [truthy] at h
      simp [halt, jsOr, hp, h]
  · simp [halt, jsOr, hs, hs2]

/-- Witness for C8: concrete halt calls, with and without identifiers. -/
theorem halt_callback_shape_witness :
    (halt ⟨some "test@example.com", some "group-1", some "timeout"⟩ "2026-10-12T00:00:00.000Z").userPrincipalName = "test@example.com" ∧
    (halt ⟨none, none, some "x"⟩ "2026-10-12T00:00:00.000Z").userPrincipalName = "unknown" ∧
    (halt ⟨none, none, some "x"⟩ "2026-10-12T00:00:00.000Z").groupId = "unknown" ∧
    (halt ⟨none, none, some "x"⟩ "2026-10-12T00:00:00.000Z").status = "halted" :=
  ⟨(halt_callback_shape ⟨some "test@example.com", some "group-1", some "timeout"⟩
      "2026-10-12T00:00:00.000Z").2.2.2.2.1 "test@example.com" rfl (by decide),
   (halt_callback_shape ⟨none, none, some "x"⟩ "2026-10-12T00:00:00.000Z").2.2.2.1 (by decide),
   (halt_callback_shape ⟨none, none, some "x"⟩ "2026-10-12T00:00:00.000Z").2.2.2.2.2.1 (by decide),
   (halt_callback_shape ⟨none, none, some "x"⟩ "2026-10-12T00:00:00.000Z").1⟩

/-- C5: a missing (or empty, per JS truthiness) `userPrincipalName` or
`groupId` each raises its own distinct error with no request issued; with
both present the base address is the request-level `address` override when
truthy and the `ADDRESS` environment default otherwise, a missing address
fails with no request issued, and when a run proceeds the first network
request targets the resolved address. -/
theorem invoke_validation_order (params : Params) (ctx : Context)
    (tokenResp : TokenResponse) (userResp : UserResponse)
    (removeResp : RemoveResponse) :
    (truthy params.userPrincipalName = false →
      invoke params ctx tokenResp userResp removeResp =
        ⟨.error "userPrincipalName is required", [],
         ["Starting Azure AD remove user from group action"]⟩) ∧
    (truthy params.userPrincipalName = true → truthy params.groupId = false →
      invoke params ctx tokenResp userResp removeResp =
        ⟨.error "groupId is required", [],
         ["Starting Azure AD remove user from group action"]⟩) ∧
    ("userPrincipalName is required" : String) ≠ "groupId is required" ∧
    (truthy params.address = true → addressOf params ctx = params.address) ∧
    (truthy params.address = false → addressOf params ctx = ctx.environment.ADDRESS) ∧
    (truthy params.userPrincipalName = true → truthy params.groupId = true →
      truthy (addressOf params ctx) = false →
      invoke params ctx tokenResp userResp removeResp =
        ⟨.error "No URL specified. Provide either address parameter or ADDRESS environment variable",
         [], ["Starting Azure AD remove user from group action"]⟩) ∧
    (∀ a tok, truthy params.userPrincipalName = true → truthy params.groupId = true →
      addressOf params ctx = some a → (a == "") = false →
      ctx.secrets.OAUTH2_AUTHORIZATION_CODE_ACCESS_TOKEN = some tok → (tok == "") = false →
      (invoke params ctx tokenResp userResp removeResp).requests.head? =
        some (getUserRequest (params.userPrincipalName.getD "") a tok)) := by
  refine ⟨fun h1 => ?_, fun h1 h2 => ?_, by decide, fun h => ?_, fun h => ?_,
    fun h1 h2 h3 => ?_, fun a tok h1 h2 ha ha2 htok htok2 => ?_⟩
  · simp [invoke, h1]
  · simp [invoke, h1, h2]
  · simp [addressOf, h]
  · simp [addressOf, h]
  · simp [invoke, h1, h2, h3]
  · have ht : truthy (addressOf params ctx) = true := by
      rw [ha]; simp [truthy, ha2]
    have htk : truthy (some tok) = true := by simp [truthy, htok2]
    have hres : resolveAccessToken ctx tokenResp = (.ok tok, []) := by
      simp [resolveAccessToken, htok, htk]
    have hta : truthy (some a) = true := by simp [truthy, ha2]
    simp only [invoke, h1, h2, ha, hta, hres, Option.getD_some, Bool.not_true]
    cases hok : userResp.ok <;>
      cases hid : truthy userResp.id <;>
        cases h204 : removeResp.status == 204 <;>
          cases h404 : removeResp.status == 404 <;>
            simp [hok, hid, h204, h404]

/-- Witness for C5: concrete invocations exercising each validation
branch. -/
theorem invoke_validation_order_witness :
    invoke ⟨none, some "g1", none⟩
        ⟨⟨some "https://x", none, none, none, none, none⟩, ⟨some "t", none⟩⟩
        ⟨true, 200, "OK", none, ""⟩ ⟨true, 200, "OK", some "u1"⟩ ⟨204, ""⟩ =
      ⟨.error "userPrincipalName is required", [],
       ["Starting Azure AD remove user from group action"]⟩ ∧
    invoke ⟨some "a@b", none, none⟩
        ⟨⟨some "https://x", none, none, none, none, none⟩, ⟨some "t", none⟩⟩
        ⟨true, 200, "OK", none, ""⟩ ⟨true, 200, "OK", some "u1"⟩ ⟨204, ""⟩ =
      ⟨.error "groupId is required", [],
       ["Starting Azure AD remove user from group action"]⟩ ∧
    invoke ⟨some "a@b", some "g1", none⟩
        ⟨⟨none, none, none, none, none, none⟩, ⟨some "t", none⟩⟩
        ⟨true, 200, "OK", none, ""⟩ ⟨true, 200, "OK", some "u1"⟩ ⟨204, ""⟩ =
      ⟨.error "No URL specified. Provide either address parameter or ADDRESS environment variable",
       [], ["Starting Azure AD remove user from group action"]⟩ ∧
    (invoke ⟨some "a@b", some "g1", none⟩
        ⟨⟨some "https://x", none, none, none, none, none⟩, ⟨some "t", none⟩⟩
        ⟨true, 200, "OK", none, ""⟩ ⟨true, 200, "OK", some "u1"⟩ ⟨204, ""⟩).requests.head? =
      some (getUserRequest "a@b" "https://x" "t") :=
  ⟨(invoke_validation_order ⟨none, some "g1", none⟩
      ⟨⟨some "https://x", none, none, none, none, none⟩, ⟨some "t", none⟩⟩
      ⟨true, 200, "OK", none, ""⟩ ⟨true, 200, "OK", some "u1"⟩ ⟨204, ""⟩).1 (by decide),
   (invoke_validation_order ⟨some "a@b", none, none⟩
      ⟨⟨some "https://x", none, none, none, none, none⟩, ⟨some "t", none⟩⟩
      ⟨true, 200, "OK", none, ""⟩ ⟨true, 200, "OK", some "u1"⟩ ⟨204, ""⟩).2.1
      (by decide) (by decide),
   (invoke_validation_order ⟨some "a@b", some "g1", none⟩
      ⟨⟨none, none, none, none, none, none⟩, ⟨some "t", none⟩⟩
      ⟨true, 200, "OK", none, ""⟩ ⟨true, 200, "OK", some "u1"⟩ ⟨204, ""⟩).2.2.2.2.2.1
      (by decide) (by decide) (by decide),
   (invoke_validation_order ⟨some "a@b", some "g1", none⟩
      ⟨⟨some "https://x", none, none, none, none, none⟩, ⟨some "t", none⟩⟩
      ⟨true, 200, "OK", none, ""⟩ ⟨true, 200, "OK", some "u1"⟩ ⟨204, ""⟩).2.2.2.2.2.2
      "https://x" "t" (by decide) (by decide) (by decide) (by decide) rfl (by decide)⟩

/-- C1: once the user is resolved with id `uid`, a removal response of 204
yields the success record with `removed := true`, a removal response of
404 yields the same record with `removed := false`, and any other removal
status throws an error whose message contains that status and its reason
text, producing no result. -/
theorem invoke_removal_status_mapping
    (params : Params) (ctx : Context) (tokenResp : TokenResponse)
    (userResp : UserResponse) (removeResp : RemoveResponse)
    (u g a tok uid : String)
    (hu : params.userPrincipalName = some u) (hu2 : (u == "") = false)
    (hg : params.groupId = some g) (hg2 : (g == "") = false)
    (ha : addressOf params ctx = some a) (ha2 : (a == "") = false)
    (htok : ctx.secrets.OAUTH2_AUTHORIZATION_CODE_ACCESS_TOKEN = some tok)
    (htok2 : (tok == "") = false)
    (hok : userResp.ok = true) (hid : userResp.id = some uid)
    (hid2 : (uid == "") = false) :
    (removeResp.status = 204 →
      (invoke params ctx tokenResp userResp removeResp).result =
        .ok ⟨"success", u, g, uid, true⟩) ∧
    (removeResp.status = 404 →
      (invoke params ctx tokenResp userResp removeResp).result =
        .ok ⟨"success", u, g, uid, false⟩) ∧
    (removeResp.status ≠ 204 → removeResp.status ≠ 404 →
      (invoke params ctx tokenResp userResp removeResp).result =
        .error ("Failed to remove user from group: " ++ toString removeResp.status ++
          " " ++ removeResp.statusText) ∧
      containsSub ("Failed to remove user from group: " ++ toString removeResp.status ++
          " " ++ removeResp.statusText) (toString removeResp.status) = true ∧
      containsSub ("Failed to remove user from group: " ++ toString removeResp.status ++
          " " ++ removeResp.statusText) removeResp.statusText = true) := by
  have hu3 : truthy (some u) = true := by simp [truthy, hu2]
  have hg3 : truthy (some g) = true := by simp [truthy, hg2]
  have ha3 : truthy (some a) = true := by simp [truthy, ha2]
  have hid3 : truthy (some uid) = true := by simp [truthy, hid2]
  have hres : resolveAccessToken ctx tokenResp = (.ok tok, []) := by
    simp [resolveAccessToken, htok, truthy, htok2]
  refine ⟨fun h204 => ?_, fun h404 => ?_, fun hn204 hn404 => ?_⟩
  · simp [invoke, hu, hg, ha, hu3, hg3, ha3, hid3, hres, hok, hid, h204]
  · simp [invoke, hu, hg, ha, hu3, hg3, ha3, hid3, hres, hok, hid, h404]
  · have e204 : (removeResp.status == 204) = false := by
      simpa using hn204
    have e404 : (removeResp.status == 404) = false := by
      simpa using hn404
    refine ⟨?_, ?_, ?_⟩
    · simp [invoke, hu, hg, ha, hu3, hg3, ha3, hid3, hres, hok, hid, e204, e404]
    · exact containsSub_of_infix _ _ "Failed to remove user from group: ".data
        (" ".data ++ removeResp.statusText.data) (by simp [String.data_append])
    · exact containsSub_append2
        ("Failed to remove user from group: " ++ toString removeResp.status ++ " ")
        removeResp.statusText

/-- Witness for C1: the 204, 404 and 403 removal responses at concrete
inputs. -/
theorem invoke_removal_status_mapping_witness :
    (invoke ⟨some "test@example.com", some "group-1", none⟩
        ⟨⟨some "https://graph.microsoft.com", none, none, none, none, none⟩,
         ⟨some "tok", none⟩⟩
        ⟨true, 200, "OK", none, ""⟩ ⟨true, 200, "OK", some "user-123"⟩
        ⟨204, "No Content"⟩).result =
      .ok ⟨"success", "test@example.com", "group-1", "user-123", true⟩ ∧
    (invoke ⟨some "test@example.com", some "group-1", none⟩
        ⟨⟨some "https://graph.microsoft.com", none, none, none, none, none⟩,
         ⟨some "tok", none⟩⟩
        ⟨true, 200, "OK", none, ""⟩ ⟨true, 200, "OK", some "user-123"⟩
        ⟨404, "Not Found"⟩).result =
      .ok ⟨"success", "test@example.com", "group-1", "user-123", false⟩ ∧
    (invoke ⟨some "test@example.com", some "group-1", none⟩
        ⟨⟨some "https://graph.microsoft.com", none, none, none, none, none⟩,
         ⟨some "tok", none⟩⟩
        ⟨true, 200, "OK", none, ""⟩ ⟨true, 200, "OK", some "user-123"⟩
        ⟨403, "Forbidden"⟩).result =
      .error "Failed to remove user from group: 403 Forbidden" :=
  ⟨(invoke_removal_status_mapping ⟨some "test@example.com", some "group-1", none⟩
      ⟨⟨some "https://graph.microsoft.com", none, none, none, none, none⟩,
       ⟨some "tok", none⟩⟩
      ⟨true, 200, "OK", none, ""⟩ ⟨true, 200, "OK", some "user-123"⟩
      ⟨204, "No Content"⟩ "test@example.com" "group-1"
      "https://graph.microsoft.com" "tok" "user-123" rfl (by decide) rfl (by decide)
      rfl (by decide) rfl (by decide) rfl rfl (by decide)).1 rfl,
   (invoke_removal_status_mapping ⟨some "test@example.com", some "group-1", none⟩
      ⟨⟨some "https://graph.microsoft.com", none, none, none, none, none⟩,
       ⟨some "tok", none⟩⟩
      ⟨true, 200, "OK", none, ""⟩ ⟨true, 200, "OK", some "user-123"⟩
      ⟨404, "Not Found"⟩ "test@example.com" "group-1"
      "https://graph.microsoft.com" "tok" "user-123" rfl (by decide) rfl (by decide)
      rfl (by decide) rfl (by decide) rfl rfl (by decide)).2.1 rfl,
   ((invoke_removal_status_mapping ⟨some "test@example.com", some "group-1", none⟩
      ⟨⟨some "https://graph.microsoft.com", none, none, none, none, none⟩,
       ⟨some "tok", none⟩⟩
      ⟨true, 200, "OK", none, ""⟩ ⟨true, 200, "OK", some "user-123"⟩
      ⟨403, "Forbidden"⟩ "test@example.com" "group-1"
      "https://graph.microsoft.com" "tok" "user-123" rfl (by decide) rfl (by decide)
      rfl (by decide) rfl (by decide) rfl rfl (by decide)).2.2 (by decide)
      (by decide)).1⟩

/-- C4: a failed resolve-user call or a resolved body without a non-empty
id throws (with the two error messages distinct) and issues no removal
request; and for every run whatsoever, a RemovalResult exists only when
both the GET and the DELETE requests were issued. -/
theorem invoke_no_partial_result
    (params : Params) (ctx : Context) (tokenResp : TokenResponse)
    (userResp : UserResponse) (removeResp : RemoveResponse)
    (u g a tok : String)
    (hu : params.userPrincipalName = some u) (hu2 : (u == "") = false)
    (hg : params.groupId = some g) (hg2 : (g == "") = false)
    (ha : addressOf params ctx = some a) (ha2 : (a == "") = false)
    (htok : ctx.secrets.OAUTH2_AUTHORIZATION_CODE_ACCESS_TOKEN = some tok)
    (htok2 : (tok == "") = false) :
    (userResp.ok = false →
      (invoke params ctx tokenResp userResp removeResp).result =
        .error ("Failed to get user " ++ u ++ ": " ++ toString userResp.status ++
          " " ++ userResp.statusText) ∧
      (invoke params ctx tokenResp userResp removeResp).requests =
        [getUserRequest u a tok]) ∧
    (userResp.ok = true → truthy userResp.id = false →
      (invoke params ctx tokenResp userResp removeResp).result =
        .error ("No directory object ID found for user " ++ u) ∧
      (invoke params ctx tokenResp userResp removeResp).requests =
        [getUserRequest u a tok]) ∧
    (∀ st stx : String,
      ("No directory object ID found for user " ++ u) ≠
        ("Failed to get user " ++ u ++ ": " ++ st ++ " " ++ stx)) ∧
    (∀ (pp : Params) (cc : Context) (tt : TokenResponse) (uu : UserResponse)
        (rr : RemoveResponse) (res : RemovalResult),
      (invoke pp cc tt uu rr).result = .ok res →
      ∃ pre gq dq, (invoke pp cc tt uu rr).requests = pre ++ [gq, dq] ∧
        gq.method = "GET" ∧ dq.method = "DELETE") := by
  have hu3 : truthy (some u) = true := by simp [truthy, hu2]
  have hg3 : truthy (some g) = true := by simp [truthy, hg2]
  have ha3 : truthy (some a) = true := by simp [truthy, ha2]
  have hres : resolveAccessToken ctx tokenResp = (.ok tok, []) := by
    simp [resolveAccessToken, htok, truthy, htok2]
  refine ⟨fun hnok => ?_, fun hok hnid => ?_, fun st stx => ?_,
    fun pp cc tt uu rr res h => ?_⟩
  · constructor <;> simp [invoke, hu, hg, ha, hu3, hg3, ha3, hres, hnok]
  · constructor <;> simp [invoke, hu, hg, ha, hu3, hg3, ha3, hres, hok, hnid]
  · exact string_ne_of_head rfl rfl (by decide)
  · cases c1 : truthy pp.userPrincipalName
    · simp [invoke, c1] at h
    · cases c2 : truthy pp.groupId
      · simp [invoke, c1, c2] at h
      · cases c3 : truthy (addressOf pp cc)
        · simp [invoke, c1, c2, c3] at h
        · rcases hr : resolveAccessToken cc tt with ⟨res0, authReqs⟩
          cases res0 with
          | error e => simp [invoke, c1, c2, c3, hr] at h
          | ok tokv =>
            cases c4 : uu.ok
            · simp [invoke, c1, c2, c3, hr, c4] at h
            · cases c5 : truthy uu.id
              · simp [invoke, c1, c2, c3, hr, c4, c5] at h
              · refine ⟨authReqs,
                  getUserRequest (pp.userPrincipalName.getD "")
                    ((addressOf pp cc).getD "") tokv,
                  removeUserFromGroupRequest (pp.groupId.getD "") (uu.id.getD "")
                    ((addressOf pp cc).getD "") tokv, ?_, rfl, rfl⟩
                cases h204 : rr.status == 204 <;>
                  cases h404 : rr.status == 404 <;>
                    simp [invoke, c1, c2, c3, hr, c4, c5, h204, h404]

/-- Witness for C4: a failed resolve at concrete inputs issues only the
GET request, and the invariant instantiated at a successful run. -/
theorem invoke_no_partial_result_witness :
    (invoke ⟨some "test@example.com", some "group-1", none⟩
        ⟨⟨some "https://graph.microsoft.com", none, none, none, none, none⟩,
         ⟨some "tok", none⟩⟩
        ⟨true, 200, "OK", none, ""⟩ ⟨false, 404, "Not Found", none⟩
        ⟨204, ""⟩).result =
      .error "Failed to get user test@example.com: 404 Not Found" ∧
    (invoke ⟨some "test@example.com", some "group-1", none⟩
        ⟨⟨some "https://graph.microsoft.com", none, none, none, none, none⟩,
         ⟨some "tok", none⟩⟩
        ⟨true, 200, "OK", none, ""⟩ ⟨false, 404, "Not Found", none⟩
        ⟨204, ""⟩).requests =
      [getUserRequest "test@example.com" "https://graph.microsoft.com" "tok"] :=
  (invoke_no_partial_result ⟨some "test@example.com", some "group-1", none⟩
      ⟨⟨some "https://graph.microsoft.com", none, none, none, none, none⟩,
       ⟨some "tok", none⟩⟩
      ⟨true, 200, "OK", none, ""⟩ ⟨false, 404, "Not Found", none⟩ ⟨204, ""⟩
      "test@example.com" "group-1" "https://graph.microsoft.com" "tok"
      rfl (by decide) rfl (by decide) rfl (by decide) rfl (by decide)).1 rfl

/-- C7: the token exchange POSTs a form body with
`grant_type=client_credentials`, adds `scope` and `audience` only when
configured, sends the client identity in the body under the `InParams`
style and as an HTTP Basic header otherwise, throws on a non-success
response embedding status and body, throws when the success body lacks an
`access_token`, and otherwise returns the `access_token` value. -/
theorem client_credentials_exchange (cfg : OAuth2Config) (resp : TokenResponse) :
    (getClientCredentialsToken cfg resp).1.method = "POST" ∧
    (getClientCredentialsToken cfg resp).1.url = cfg.tokenUrl ∧
    ("grant_type", "client_credentials") ∈ (getClientCredentialsToken cfg resp).1.formParams ∧
    (truthy cfg.scope = false →
      ∀ v, ("scope", v) ∉ (getClientCredentialsToken cfg resp).1.formParams) ∧
    (∀ sv, cfg.scope = some sv → (sv == "") = false →
      ("scope", sv) ∈ (getClientCredentialsToken cfg resp).1.formParams) ∧
    (truthy cfg.audience = false →
      ∀ v, ("audience", v) ∉ (getClientCredentialsToken cfg resp).1.formParams) ∧
    (∀ av, cfg.audience = some av → (av == "") = false →
      ("audience", av) ∈ (getClientCredentialsToken cfg resp).1.formParams) ∧
    (cfg.authStyle = some "InParams" →
      ("client_id", cfg.clientId) ∈ (getClientCredentialsToken cfg resp).1.formParams ∧
      ("client_secret", cfg.clientSecret) ∈ (getClientCredentialsToken cfg resp).1.formParams ∧
      (∀ v, ("Authorization", v) ∉ (getClientCredentialsToken cfg resp).1.headers)) ∧
    (cfg.authStyle ≠ some "InParams" →
      ("Authorization", "Basic " ++ base64 (cfg.clientId ++ ":" ++ cfg.clientSecret)) ∈
        (getClientCredentialsToken cfg resp).1.headers ∧
      (∀ v, ("client_id", v) ∉ (getClientCredentialsToken cfg resp).1.formParams) ∧
      (∀ v, ("client_secret", v) ∉ (getClientCredentialsToken cfg resp).1.formParams)) ∧
    (resp.ok = false →
      (getClientCredentialsToken cfg resp).2 =
        .error ("OAuth2 token request failed: " ++ toString resp.status ++ " " ++
          resp.statusText ++ " - " ++ resp.bodyText) ∧
      containsSub ("OAuth2 token request failed: " ++ toString resp.status ++ " " ++
          resp.statusText ++ " - " ++ resp.bodyText) (toString resp.status) = true ∧
      containsSub ("OAuth2 token request failed: " ++ toString resp.status ++ " " ++
          resp.statusText ++ " - " ++ resp.bodyText) resp.bodyText = true) ∧
    (resp.ok = true → truthy resp.accessToken = false →
      (getClientCredentialsToken cfg resp).2 = .error "No access_token in OAuth2 response") ∧
    (∀ t, resp.ok = true → resp.accessToken = some t → (t == "") = false →
      (getClientCredentialsToken cfg resp).2 = .ok t) := by
  refine ⟨rfl, rfl, ?_, fun hs v => ?_, fun sv hsv hsv2 => ?_, fun hau v => ?_,
    fun av hav hav2 => ?_, fun hst => ?_, fun hst => ?_, fun hnok => ?_,
    fun hok hnt => ?_, fun t hok ht ht2 => ?_⟩
  · simp [getClientCredentialsToken, ccTokenRequest, ccFormParams]
  · simp only [getClientCredentialsToken, ccTokenRequest, ccFormParams, hs]
    split <;> split <;> simp_all
  · have h3 : truthy (some sv) = true := by simp [truthy, hsv2]
    simp [getClientCredentialsToken, ccTokenRequest, ccFormParams, hsv, h3]
  · simp only [getClientCredentialsToken, ccTokenRequest, ccFormParams, hau]
    split <;> split <;> simp_all
  · have h3 : truthy (some av) = true := by simp [truthy, hav2]
    simp [getClientCredentialsToken, ccTokenRequest, ccFormParams, hav, h3]
  · refine ⟨?_, ?_, fun v => ?_⟩ <;>
      simp [getClientCredentialsToken, ccTokenRequest, ccFormParams, ccHeaders, hst]
  · have h3 : (cfg.authStyle == some "InParams") = false := by
      simpa using hst
    refine ⟨?_, fun v => ?_, fun v => ?_⟩
    · simp [getClientCredentialsToken, ccTokenRequest, ccHeaders, h3]
    · simp only [getClientCredentialsToken, ccTokenRequest, ccFormParams, h3]
      split <;> split <;> simp_all
    · simp only [getClientCredentialsToken, ccTokenRequest, ccFormParams, h3]
      split <;> split <;> simp_all
  · refine ⟨?_, ?_, ?_⟩
    · simp [getClientCredentialsToken, hnok]
    · exact containsSub_of_infix _ _ "OAuth2 token request failed: ".data
        (" ".data ++ resp.statusText.data ++ " - ".data ++ resp.bodyText.data)
        (by simp [String.data_append])
    · exact containsSub_append2
        ("OAuth2 token request failed: " ++ toString resp.status ++ " " ++
          resp.statusText ++ " - ") resp.bodyText
  · simp [getClientCredentialsToken, hok, hnt]
  · have h3 : truthy (some t) = true := by simp [truthy, ht2]
    simp [getClientCredentialsToken, hok, ht, h3]

/-- Witness for C7: the exchange at a concrete `InParams` configuration
with a successful token response, and at a failing response. -/
theorem client_credentials_exchange_witness :
    ("client_id", "cid") ∈
      (getClientCredentialsToken ⟨"https://t", "cid", "csec", some "s1", none,
        some "InParams"⟩ ⟨true, 200, "OK", some "tok123", ""⟩).1.formParams ∧
    ("scope", "s1") ∈
      (getClientCredentialsToken ⟨"https://t", "cid", "csec", some "s1", none,
        some "InParams"⟩ ⟨true, 200, "OK", some "tok123", ""⟩).1.formParams ∧
    (getClientCredentialsToken ⟨"https://t", "cid", "csec", some "s1", none,
        some "InParams"⟩ ⟨true, 200, "OK", some "tok123", ""⟩).2 = .ok "tok123" ∧
    (getClientCredentialsToken ⟨"https://t", "cid", "csec", none, none, none⟩
        ⟨false, 500, "Server Error", none, "oops"⟩).2 =
      .error "OAuth2 token request failed: 500 Server Error - oops" :=
  ⟨((client_credentials_exchange ⟨"https://t", "cid", "csec", some "s1", none,
      some "InParams"⟩ ⟨true, 200, "OK", some "tok123", ""⟩).2.2.2.2.2.2.2.1 rfl).1,
   (client_credentials_exchange ⟨"https://t", "cid", "csec", some "s1", none,
      some "InParams"⟩ ⟨true, 200, "OK", some "tok123", ""⟩).2.2.2.2.1 "s1" rfl
      (by decide),
   (client_credentials_exchange ⟨"https://t", "cid", "csec", some "s1", none,
      some "InParams"⟩ ⟨true, 200, "OK", some "tok123", ""⟩).2.2.2.2.2.2.2.2.2.2.2
      "tok123" rfl rfl (by decide),
   ((client_credentials_exchange ⟨"https://t", "cid", "csec", none, none, none⟩
      ⟨false, 500, "Server Error", none, "oops"⟩).2.2.2.2.2.2.2.2.2.1 rfl).1⟩

/-- C2: the credential resolver tries the four schemes in fixed priority
order - bearer secret, Basic username+password, pre-issued OAuth2 access
token, OAuth2 client-credentials exchange - the first satisfied scheme
winning; in particular a bag holding both a bearer secret and
client-credentials material selects the bearer secret; with no scheme
satisfiable it fails with a configuration error naming the supported
methods. (The resolver is modelled from the spec; see
`createAuthHeaders`.) -/
theorem credential_resolver_priority (bag : AuthBag) (tokenResp : TokenResponse) :
    (truthy bag.bearerToken = true →
      createAuthHeaders bag tokenResp = .ok (bearerHeader (bag.bearerToken.getD ""))) ∧
    (truthy bag.bearerToken = true → truthy bag.ccClientSecret = true →
      createAuthHeaders bag tokenResp = .ok (bearerHeader (bag.bearerToken.getD ""))) ∧
    (truthy bag.bearerToken = false → truthy bag.basicUsername = true →
      truthy bag.basicPassword = true →
      createAuthHeaders bag tokenResp =
        .ok ("Basic " ++ base64 (bag.basicUsername.getD "" ++ ":" ++ bag.basicPassword.getD ""))) ∧
    (truthy bag.bearerToken = false →
      (truthy bag.basicUsername && truthy bag.basicPassword) = false →
      truthy bag.oauthAccessToken = true →
      createAuthHeaders bag tokenResp = .ok (bearerHeader (bag.oauthAccessToken.getD ""))) ∧
    (truthy bag.bearerToken = false →
      (truthy bag.basicUsername && truthy bag.basicPassword) = false →
      truthy bag.oauthAccessToken = false → truthy bag.ccClientSecret = true →
      (truthy bag.ccTokenUrl = false ∨ truthy bag.ccClientId = false) →
      createAuthHeaders bag tokenResp =
        .error "OAuth2 Client Credentials flow requires TOKEN_URL, CLIENT_ID, and CLIENT_SECRET") ∧
    (∀ tok, truthy bag.bearerToken = false →
      (truthy bag.basicUsername && truthy bag.basicPassword) = false →
      truthy bag.oauthAccessToken = false → truthy bag.ccClientSecret = true →
      truthy bag.ccTokenUrl = true → truthy bag.ccClientId = true →
      (getClientCredentialsToken ⟨bag.ccTokenUrl.getD "", bag.ccClientId.getD "",
        bag.ccClientSecret.getD "", bag.ccScope, bag.ccAudience, bag.ccAuthStyle⟩
        tokenResp).2 = .ok tok →
      createAuthHeaders bag tokenResp = .ok (bearerHeader tok)) ∧
    (truthy bag.bearerToken = false →
      (truthy bag.basicUsername && truthy bag.basicPassword) = false →
      truthy bag.oauthAccessToken = false → truthy bag.ccClientSecret = false →
      ∃ m, createAuthHeaders bag tokenResp = .error m ∧
        containsSub m "bearer token" = true ∧ containsSub m "basic" = true ∧
        containsSub m "OAuth2 access token" = true ∧
        containsSub m "client credentials" = true) := by
  refine ⟨fun hb => ?_, fun hb _ => ?_, fun hb hbu hbp => ?_, fun hb hpair hoa => ?_,
    fun hb hpair hoa hcc hreq => ?_, fun tok hb hpair hoa hcc hturl hcid hx => ?_,
    fun hb hpair hoa hcc => ?_⟩
  · simp [createAuthHeaders, hb]
  · simp [createAuthHeaders, hb]
  · simp [createAuthHeaders, hb, hbu, hbp]
  · simp [createAuthHeaders, hb, hpair, hoa]
  · rcases hreq with h | h <;> simp [createAuthHeaders, hb, hpair, hoa, hcc, h]
  · simp [createAuthHeaders, hb, hpair, hoa, hcc, hturl, hcid, hx]
  · refine ⟨"No supported authentication method configured. Supported methods: bearer token secret, basic username and password secrets, OAuth2 access token secret, OAuth2 client credentials",
      ?_, by decide, by decide, by decide, by decide⟩
    simp [createAuthHeaders, hb, hpair, hoa, hcc]

/-- Witness for C2: a bag holding both a bearer secret and full
client-credentials material selects the bearer secret, and the empty bag
fails with the enumerating configuration error. -/
theorem credential_resolver_priority_witness :
    createAuthHeaders ⟨some "Bearer abc", none, none, none, some "csec",
        some "https://t", some "cid", none, none, none⟩
        ⟨true, 200, "OK", some "cctok", ""⟩ = .ok "Bearer abc" ∧
    (∃ m, createAuthHeaders ⟨none, none, none, none, none, none, none, none, none, none⟩
        ⟨true, 200, "OK", some "cctok", ""⟩ = .error m ∧
      containsSub m "bearer token" = true ∧ containsSub m "basic" = true ∧
      containsSub m "OAuth2 access token" = true ∧
      containsSub m "client credentials" = true) :=
  ⟨(credential_resolver_priority ⟨some "Bearer abc", none, none, none, some "csec",
      some "https://t", some "cid", none, none, none⟩
      ⟨true, 200, "OK", some "cctok", ""⟩).2.1 (by decide) (by decide),
   (credential_resolver_priority
      ⟨none, none, none, none, none, none, none, none, none, none⟩
      ⟨true, 200, "OK", some "cctok", ""⟩).2.2.2.2.2.2 (by decide) (by decide)
      (by decide) (by decide)⟩

/-! ## Token secrecy (C9) -/

/-- Context update replacing only the pre-issued access-token secret. -/
def setAccessToken (ctx : Context) (t : String) : Context :=
  { ctx with secrets :=
    { ctx.secrets with OAUTH2_AUTHORIZATION_CODE_ACCESS_TOKEN := some t } }

/-- A request with its Authorization header removed. -/
def stripAuth (r : HttpRequest) : HttpRequest :=
  { r with headers := r.headers.filter (fun kv => !(kv.1 == "Authorization")) }

theorem addressOf_setAccessToken (params : Params) (ctx : Context) (t : String) :
    addressOf params (setAccessToken ctx t) = addressOf params ctx := rfl

theorem stripAuth_getUserRequest (u a t : String) :
    stripAuth (getUserRequest u a t) =
      ⟨"GET", stripTrailingSlash a ++ "/v1.0/users/" ++ encodeURIComponent u,
       [("Accept", "application/json")], []⟩ := rfl

theorem stripAuth_removeUserFromGroupRequest (g uid a t : String) :
    stripAuth (removeUserFromGroupRequest g uid a t) =
      ⟨"DELETE", stripTrailingSlash a ++ "/v1.0/groups/" ++ g ++ "/members/" ++
         encodeURIComponent uid ++ "/$ref",
       [("Accept", "application/json")], []⟩ := rfl

/-- C9: the access-token secret never reaches the log output or the
returned result: two invocations whose contexts differ only in the value
of the access-token secret produce identical logs, identical results, and
request traces identical outside the Authorization header. The embedding
is stateless, so the credential is recomputed per invocation and nothing
is persisted. -/
theorem token_noninterference (params : Params) (ctx : Context)
    (tokenResp : TokenResponse) (userResp : UserResponse)
    (removeResp : RemoveResponse) (t1 t2 : String)
    (h1 : (t1 == "") = false) (h2 : (t2 == "") = false) :
    (invoke params (setAccessToken ctx t1) tokenResp userResp removeResp).logs =
      (invoke params (setAccessToken ctx t2) tokenResp userResp removeResp).logs ∧
    (invoke params (setAccessToken ctx t1) tokenResp userResp removeResp).result =
      (invoke params (setAccessToken ctx t2) tokenResp userResp removeResp).result ∧
    (invoke params (setAccessToken ctx t1) tokenResp userResp removeResp).requests.map stripAuth =
      (invoke params (setAccessToken ctx t2) tokenResp userResp removeResp).requests.map stripAuth := by
  have hres1 : resolveAccessToken (setAccessToken ctx t1) tokenResp = (.ok t1, []) := by
    simp [resolveAccessToken, setAccessToken, truthy, h1]
  have hres2 : resolveAccessToken (setAccessToken ctx t2) tokenResp = (.ok t2, []) := by
    simp [resolveAccessToken, setAccessToken, truthy, h2]
  cases c1 : truthy params.userPrincipalName <;>
    cases c2 : truthy params.groupId <;>
      cases c3 : truthy (addressOf params ctx) <;>
        cases c4 : userResp.ok <;>
          cases c5 : truthy userResp.id <;>
            cases h204 : removeResp.status == 204 <;>
              cases h404 : removeResp.status == 404 <;>
                simp [invoke, addressOf_setAccessToken, c1, c2, c3, c4, c5,
                  h204, h404, hres1, hres2, stripAuth_getUserRequest,
                  stripAuth_removeUserFromGroupRequest]

/-- Witness for C9: two concrete runs differing only in the token secret
agree on logs, result, and auth-stripped requests. -/
theorem token_noninterference_witness :
    (invoke ⟨some "a@b", some "g1", none⟩
        (setAccessToken ⟨⟨some "https://x", none, none, none, none, none⟩,
          ⟨none, none⟩⟩ "tokA")
        ⟨true, 200, "OK", none, ""⟩ ⟨true, 200, "OK", some "u1"⟩ ⟨204, ""⟩).logs =
      (invoke ⟨some "a@b", some "g1", none⟩
        (setAccessToken ⟨⟨some "https://x", none, none, none, none, none⟩,
          ⟨none, none⟩⟩ "tokB")
        ⟨true, 200, "OK", none, ""⟩ ⟨true, 200, "OK", some "u1"⟩ ⟨204, ""⟩).logs :=
  (token_noninterference ⟨some "a@b", some "g1", none⟩
    ⟨⟨some "https://x", none, none, none, none, none⟩, ⟨none, none⟩⟩
    ⟨true, 200, "OK", none, ""⟩ ⟨true, 200, "OK", some "u1"⟩ ⟨204, ""⟩
    "tokA" "tokB" (by decide) (by decide)).1

end Aad
